import Mathlib

/-!
Verification of the ddns-server record-update orchestrator.

The definitions below are a shallow embedding of the two Python
implementations in this repository: `src/api.py` (the current FastAPI
implementation; its definitions live at top level here, mirroring the
module) and `src/ddns-api/api.py` (the legacy Flask implementation;
its definitions live in the `Legacy` namespace).  Python strings are
modelled as Lean `String` and, where character-level reasoning is
needed, as `List Char`.
-/

/-! ## Python string primitives used by the source -/

/-- Membership of a character in a strip set, as a boolean. -/
def pyCharIn (cs : List Char) (c : Char) : Bool :=
  cs.contains c

/-- Python str.lstrip(chars) on a character list: drop the given
characters from the front. -/
def pyLstripList (cs : List Char) (l : List Char) : List Char :=
  l.dropWhile (pyCharIn cs)

/-- Python str.strip(chars) on a character list: drop the given
characters from both ends. -/
def pyStripList (cs : List Char) (l : List Char) : List Char :=
  ((l.dropWhile (pyCharIn cs)).reverse.dropWhile (pyCharIn cs)).reverse

/-- Python str.strip(chars) on a string. -/
def pyStrip (cs : List Char) (s : String) : String :=
  ⟨pyStripList cs s.data⟩

/-- Python str.lstrip(chars) on a string. -/
def pyLstrip (cs : List Char) (s : String) : String :=
  ⟨pyLstripList cs s.data⟩

/-- The default whitespace set of Python str.strip() with no argument:
space, tab, newline, carriage return, vertical tab, form feed. -/
def pyWhitespace : List Char :=
  [' ', '\t', '\n', '\r', '\x0b', '\x0c']

/-- Python str.split(sep) for a single-character separator: splits into
the (possibly empty) chunks between separator occurrences.  On the empty
string it returns one empty chunk, as in Python. -/
def pySplit (sep : Char) : List Char → List (List Char)
  | [] => [[]]
  | c :: rest =>
    match pySplit sep rest with
    | [] => [[]]
    | g :: gs => if c = sep then [] :: g :: gs else (c :: g) :: gs

/-! ## Model of Python ipaddress.ip_address validity

`is_valid_ip` in `src/api.py` (and `valid_ip` in the legacy file) calls
`ipaddress.ip_address` and reports whether it raised `ValueError`.  The
definitions below model the address-syntax check of CPython ipaddress:
an IPv4 dotted quad of four decimal octets (1-3 digits, value at most
255, no leading zeros), or an IPv6 address of colon-separated 1-4 digit
hexadecimal groups with at most one double-colon gap and an optional
embedded IPv4 suffix.  IPv6 scope identifiers are not modelled; no
claim in this development depends on them. -/

/-- ASCII decimal digit test. -/
def isDigitChar (c : Char) : Bool :=
  '0' ≤ c && c ≤ '9'

/-- ASCII hexadecimal digit test. -/
def isHexChar (c : Char) : Bool :=
  isDigitChar c || ('a' ≤ c && c ≤ 'f') || ('A' ≤ c && c ≤ 'F')

/-- Decimal value of a digit list (most significant first). -/
def decimalVal (l : List Char) : Nat :=
  l.foldl (fun a c => a * 10 + (c.toNat - '0'.toNat)) 0

/-- CPython ipaddress octet check: nonempty, all digits, at most three
digits, no leading zero, value at most 255. -/
def validOctet (l : List Char) : Bool :=
  l ≠ [] && l.all isDigitChar && l.length ≤ 3 &&
    !(l.headD ' ' = '0' && l.length > 1) && decimalVal l ≤ 255

/-- IPv4 dotted-quad check on a character list. -/
def is_ipv4 (l : List Char) : Bool :=
  let parts := pySplit '.' l
  parts.length = 4 && parts.all validOctet

/-- CPython ipaddress hextet check: one to four hexadecimal digits. -/
def validHextet (l : List Char) : Bool :=
  l ≠ [] && l.all isHexChar && l.length ≤ 4

/-- Core of the CPython IPv6 check, after the optional embedded IPv4
suffix has been replaced by two placeholder hextets: at most nine
colon-separated parts, at most one empty part strictly inside (the
double-colon gap), empty end parts only next to that gap, and eight
groups in total once the gap is expanded. -/
def is_ipv6_core (parts : List (List Char)) : Bool :=
  let n := parts.length
  if n > 9 then false
  else
    let inner := (List.range n).filter fun i =>
      decide (0 < i) && decide (i < n - 1) && decide (parts.getD i [' '] = [])
    match inner with
    | [] =>
      n = 8 && parts.getD 0 [' '] ≠ [] && parts.getD (n - 1) [' '] ≠ [] &&
        parts.all validHextet
    | [i] =>
      let firstEmpty := parts.getD 0 [' '] = []
      let lastEmpty := parts.getD (n - 1) [' '] = []
      if firstEmpty && !(i - 1 = 0) then false
      else if lastEmpty && !(n - i - 2 = 0) then false
      else
        let partsHi := if firstEmpty then 0 else i
        let partsLo := if lastEmpty then 0 else n - i - 1
        partsHi + partsLo ≤ 7 &&
          (parts.take partsHi).all validHextet &&
          (parts.drop (n - partsLo)).all validHextet
    | _ => false

/-- IPv6 address check on a character list. -/
def is_ipv6 (l : List Char) : Bool :=
  let parts := pySplit ':' l
  if parts.length < 3 then false
  else
    let last := parts.getLastD []
    if last.contains '.' then
      if is_ipv4 last then is_ipv6_core (parts.dropLast ++ [['0'], ['0']])
      else false
    else is_ipv6_core parts

/-- is_valid_ip of src/api.py (and valid_ip of src/ddns-api/api.py):
whether ipaddress.ip_address accepts the string. -/
def is_valid_ip (address : String) : Bool :=
  is_ipv4 address.data || is_ipv6 address.data

example : is_valid_ip "10.0.0.5" = true := by decide
example : is_valid_ip "9.9.9.9" = true := by decide
example : is_valid_ip "not-an-ip" = false := by decide
example : is_valid_ip "256.1.1.1" = false := by decide
example : is_valid_ip "1.2.3.04" = false := by decide
example : is_valid_ip "::1" = true := by decide
example : is_valid_ip "2001:db8::ff00:42:8329" = true := by decide
example : is_valid_ip "1::2::3" = false := by decide
example : is_valid_ip "" = false := by decide
example : is_valid_ip "::ffff:10.0.0.5" = true := by decide

/-! ## Enumerations and request-level types (src/api.py) -/

/-- The RecordType enum of src/api.py (string values "A" and "TXT"). -/
inductive RecordType
  | A
  | TXT
deriving DecidableEq

/-- The string value of a RecordType member, as used in the directives. -/
def RecordType.value : RecordType → String
  | .A => "A"
  | .TXT => "TXT"

/-- The MethodType enum of src/api.py. -/
inductive MethodType
  | update
  | delete
deriving DecidableEq

/-- One ASCII alphanumeric character of the HostType pattern. -/
def isAlnumChar (c : Char) : Bool :=
  ('a' ≤ c && c ≤ 'z') || ('A' ≤ c && c ≤ 'Z') || isDigitChar c

/-- One label of the HostType pattern of src/api.py: nonempty,
alphanumerics and hyphens only, first and last character alphanumeric. -/
def validLabel (l : List Char) : Bool :=
  l ≠ [] && l.all (fun c => isAlnumChar c || c = '-') &&
    isAlnumChar (l.headD ' ') && isAlnumChar (l.getLastD ' ')

/-- The HostType constraint of src/api.py: dot-separated valid labels. -/
def validHost (s : String) : Bool :=
  (pySplit '.' s.data).all validLabel

example : validHost "foo" = true := by decide
example : validHost "a-b.c0" = true := by decide
example : validHost "" = false := by decide
example : validHost "-a" = false := by decide
example : validHost "a..b" = false := by decide

/-- An HTTPException raised by update_record in src/api.py, identified
by status code group and detail string. -/
inductive HttpError
  | badRequest (detail : String)
  | internalError (detail : String)
deriving DecidableEq

/-- Result of the value-resolution phase of update_record (src/api.py
lines 122-142): either an HTTPException or the computed record_value. -/
inductive ValueRes
  | fail (e : HttpError)
  | ok (rv : String)
deriving DecidableEq

/-- The set of characters stripped from the raw value query parameter by
src/api.py line 122: space, double quote, single quote (character 39). -/
def valueStripSet : List Char :=
  [' ', '"', Char.ofNat 39]

/-- src/api.py line 122: the normalized value parameter.  The raw query
value is an optional string defaulting to the empty string; a missing or
empty (falsy) value normalizes to the empty string, anything else is
stripped of surrounding space and quote characters. -/
def strippedValue (value0 : Option String) : String :=
  match value0 with
  | none => ""
  | some s => if s = "" then "" else pyStrip valueStripSet s

/-- src/api.py line 141: value.replace of each double quote by a
backslash-quote pair, on a character list. -/
def escapeQuotesList : List Char → List Char
  | [] => []
  | c :: rest =>
    if c = '"' then '\\' :: '"' :: escapeQuotesList rest
    else c :: escapeQuotesList rest

/-- src/api.py line 141 on strings. -/
def escape_quotes (s : String) : String :=
  ⟨escapeQuotesList s.data⟩

/-- src/api.py lines 122-142: compute record_value from the record type,
method, raw value parameter and the client address, or fail with the
HTTPException raised there. -/
def record_value (rt : RecordType) (m : MethodType) (value0 : Option String)
    (clientHost : String) : ValueRes :=
  let v := strippedValue value0
  match rt with
  | .A =>
    if v ≠ "" then
      if !is_valid_ip v then .fail (.badRequest "Value for A record is not a valid IP")
      else .ok v
    else .ok clientHost
  | .TXT =>
    if m = .update ∧ v = "" then .fail (.badRequest "TXT record value cannot be empty")
    else if v ≠ "" then .ok ("\"" ++ escape_quotes v ++ "\"")
    else .ok ""

/-! ## The transaction builder (src/api.py lines 144-151) -/

/-- The file_content contribution of one host in the loop of src/api.py
lines 147-150: the update delete line, followed for the update method by
the update add line. -/
def host_block (zone ttl : String) (rt : RecordType) (m : MethodType)
    (rv h : String) : String :=
  "update delete " ++ h ++ "." ++ zone ++ " " ++ rt.value ++ "\n" ++
    (if m = .update then
      "update add " ++ h ++ "." ++ zone ++ " " ++ ttl ++ " " ++ rt.value ++ " " ++ rv ++ "\n"
    else "")

/-- file_content of src/api.py lines 144-151: the server line, the zone
line, the per-host blocks in host order, and the send marker. -/
def file_content (zone ttl : String) (rt : RecordType) (m : MethodType)
    (hosts : List String) (rv : String) : String :=
  (hosts.foldl (fun acc h => acc ++ host_block zone ttl rt m rv h)
    ("server 127.0.0.1\n" ++ ("zone " ++ zone ++ "\n"))) ++ "send\n"

/-- The directive lines contributed by one host, without terminators. -/
def host_lines (zone ttl : String) (rt : RecordType) (m : MethodType)
    (rv h : String) : List String :=
  ["update delete " ++ h ++ "." ++ zone ++ " " ++ rt.value] ++
    (if m = .update then
      ["update add " ++ h ++ "." ++ zone ++ " " ++ ttl ++ " " ++ rt.value ++ " " ++ rv]
    else [])

/-- The built transaction as a list of directive lines. -/
def file_lines (zone ttl : String) (rt : RecordType) (m : MethodType)
    (hosts : List String) (rv : String) : List String :=
  ["server 127.0.0.1", "zone " ++ zone] ++
    hosts.flatMap (host_lines zone ttl rt m rv) ++ ["send"]

/-- Concatenation of a list of strings. -/
def concatStrings (ls : List String) : String :=
  ls.foldr (· ++ ·) ""

/-- Joining lines: each line followed by one newline character. -/
def joinNL (ls : List String) : String :=
  concatStrings (ls.map (· ++ "\n"))

/-! ## The transaction executor and result mapper (src/api.py lines 153-176) -/

/-- The fixed transaction file path used by src/api.py line 153:
the temporary directory joined with the constant name nsupdate.txt. -/
def update_file (tmpdir : String) : String :=
  tmpdir ++ "/nsupdate.txt"

/-- Outcome of attempting to run the external nsupdate process: the
create_subprocess_exec call raised, or the process ran and exited with
the given code. -/
inductive ToolRun
  | execFailed
  | ran (exitCode : Int)
deriving DecidableEq

/-- The success message constructed by src/api.py lines 172-174, kept in
structured form (the formatted text is injective in these fields). -/
inductive ApiMessage
  | updated (hosts : List String) (rt : RecordType) (rv : String)
  | deleted (hosts : List String) (rt : RecordType)
deriving DecidableEq

/-- The caller-visible result of update_record: a raised HTTPException
or the success response body. -/
inductive ApiResult
  | httpError (e : HttpError)
  | success (message : ApiMessage)
deriving DecidableEq

/-- The observable outcome of one update_record request: the final
contents of the shared nsupdate.txt slot as left by this request (none
when the request failed validation before writing), and the
caller-visible result. -/
structure RequestOutcome where
  nsupdateFile : Option String
  result : ApiResult
deriving DecidableEq

/-- Full model of update_record (src/api.py lines 112-176): resolve the
record value, build the transaction, write it to the fixed temporary
file, run the external tool, and map the outcome.  The source contains
no removal of the written file on any path. -/
def update_record (zone ttl : String) (rt : RecordType) (m : MethodType)
    (hosts : List String) (value0 : Option String) (clientHost : String)
    (tool : ToolRun) : RequestOutcome :=
  match record_value rt m value0 clientHost with
  | .fail e => { nsupdateFile := none, result := .httpError e }
  | .ok rv =>
    let content := file_content zone ttl rt m hosts rv
    match tool with
    | .execFailed =>
      { nsupdateFile := some content
        result := .httpError (.internalError "An error occured.") }
    | .ran code =>
      if code ≠ 0 then
        { nsupdateFile := some content
          result := .httpError (.internalError "An error occured.") }
      else
        { nsupdateFile := some content
          result := .success
            (if m = .delete then .deleted hosts rt else .updated hosts rt rv) }

/-! ## The legacy implementation (src/ddns-api/api.py) -/

namespace Legacy

/-- The ZONE configuration of the legacy file (line 40): the raw
environment value with leading dots stripped (lstrip, not strip). -/
def zoneConfig (raw : String) : String :=
  pyLstrip ['.'] raw

/-- reqparse argument trimming (trim=True): Python str.strip() with the
default whitespace set, applied to the raw query argument. -/
def trimArg (s : String) : String :=
  pyStrip pyWhitespace s

/-- Lines 97-100 of the legacy file: split the host argument on commas,
keep the nonempty whitespace-stripped entries, and append the zone. -/
def hostsOf (zone rawHost : String) : List String :=
  (pySplit ',' (trimArg rawHost).data).filterMap fun h =>
    let h2 := pyStripList pyWhitespace h
    if h2 = [] then none else some (String.mk h2 ++ "." ++ zone)

/-- A failure dictionary returned by the legacy handler, identified by
its message string. -/
inductive Failure
  | unknownRecord
  | unknownMethod
  | missingHost
  | addressInvalid
  | emptyTxt
  | zoneUpdateError
deriving DecidableEq

/-- Result of the value-preparation phase of the legacy handler
(lines 105-122). -/
inductive ValueRes
  | fail (f : Failure)
  | ok (value : String)
deriving DecidableEq

/-- Lines 105-122 of the legacy file: prepare the value.  For A records
a nonempty argument must be a valid IP and is used as is, an empty
argument falls back to the X-Real-IP header or the transport address;
for TXT records an empty argument is rejected unless deleting, and the
value is wrapped in double quotes after stripping surrounding space and
double-quote characters (no escaping of any kind). -/
def resolve_value (rt : RecordType) (m : MethodType) (argsValue : String)
    (xRealIp : Option String) (remoteAddr : String) : ValueRes :=
  match rt with
  | .A =>
    if argsValue ≠ "" then
      if !is_valid_ip argsValue then .fail .addressInvalid
      else .ok argsValue
    else .ok (xRealIp.getD remoteAddr)
  | .TXT =>
    if argsValue = "" ∧ m ≠ .delete then .fail .emptyTxt
    else .ok ("\"" ++ pyStrip [' ', '"'] argsValue ++ "\"")

/-- The file_content contribution of one already-qualified host in the
loop of legacy lines 127-134. -/
def host_block (ttl : String) (rt : RecordType) (m : MethodType)
    (value hostFq : String) : String :=
  "update delete " ++ hostFq ++ " " ++ rt.value ++ "\n" ++
    (if m = .update then
      "update add " ++ hostFq ++ " " ++ ttl ++ " " ++ rt.value ++ " " ++ value ++ "\n"
    else "")

/-- file_content of legacy lines 125-135: server localhost, the zone
line, the per-host blocks, and the send marker. -/
def file_content (zone ttl : String) (rt : RecordType) (m : MethodType)
    (hostsFq : List String) (value : String) : String :=
  (hostsFq.foldl (fun acc h => acc ++ host_block ttl rt m value h)
    ("server localhost\n" ++ ("zone " ++ zone ++ "\n"))) ++ "send\n"

/-- The directive lines contributed by one already-qualified host. -/
def host_lines (ttl : String) (rt : RecordType) (m : MethodType)
    (value hostFq : String) : List String :=
  ["update delete " ++ hostFq ++ " " ++ rt.value] ++
    (if m = .update then
      ["update add " ++ hostFq ++ " " ++ ttl ++ " " ++ rt.value ++ " " ++ value]
    else [])

/-- The legacy transaction as a list of directive lines. -/
def file_lines (zone ttl : String) (rt : RecordType) (m : MethodType)
    (hostsFq : List String) (value : String) : List String :=
  ["server localhost", "zone " ++ zone] ++
    hostsFq.flatMap (host_lines ttl rt m value) ++ ["send"]

/-- The fixed transaction file path used by legacy line 137: the
temporary directory joined with the constant name nsupdate.txt. -/
def update_filename (tmpdir : String) : String :=
  tmpdir ++ "/nsupdate.txt"

end Legacy

/-! ## The shared transaction medium under concurrent requests

Both implementations write every request batch to the single fixed path
returned by `update_file` and `Legacy.update_filename`, and neither
takes any lock around the write and the tool invocation (no locking
construct appears anywhere in either source file).  The small model
below runs two requests, each consisting of a write step (the source
writing its batch to the shared file) and an invoke step (the external
tool reading whatever the shared file then holds), under an arbitrary
interleaving. -/

/-- One atomic step of one of two concurrent requests: writing its
batch to the shared file, or invoking the tool, which reads the file. -/
inductive ExecStep
  | write (second : Bool)
  | invoke (second : Bool)
deriving DecidableEq

/-- The shared file and what each request's tool invocation read. -/
structure ExecState where
  sharedFile : Option String
  readFirst : Option String
  readSecond : Option String
deriving DecidableEq

/-- Effect of one step, given the two requests' batch contents. -/
def execStep (c0 c1 : String) (s : ExecState) : ExecStep → ExecState
  | .write false => { s with sharedFile := some c0 }
  | .write true => { s with sharedFile := some c1 }
  | .invoke false => { s with readFirst := s.sharedFile }
  | .invoke true => { s with readSecond := s.sharedFile }

/-- Run an interleaving of the two requests' steps from the initial
state. -/
def execRun (c0 c1 : String) (steps : List ExecStep) : ExecState :=
  steps.foldl (execStep c0 c1) ⟨none, none, none⟩

/-! ## Helper lemmas about string concatenation and the line view -/

theorem concatStrings_nil : concatStrings [] = "" := rfl

theorem concatStrings_cons (a : String) (l : List String) :
    concatStrings (a :: l) = a ++ concatStrings l := rfl

theorem concatStrings_append (l1 l2 : List String) :
    concatStrings (l1 ++ l2) = concatStrings l1 ++ concatStrings l2 := by
  induction l1 with
  | nil => simp [concatStrings_nil, concatStrings]
  | cons a t ih =>
    simp only [List.cons_append, concatStrings_cons, ih, String.append_assoc]

theorem foldl_append_concat (f : String → String) (l : List String) (init : String) :
    l.foldl (fun acc h => acc ++ f h) init = init ++ concatStrings (l.map f) := by
  induction l generalizing init with
  | nil => simp [concatStrings_nil]
  | cons a t ih =>
    simp only [List.foldl_cons, List.map_cons, concatStrings_cons, ih,
      String.append_assoc]

theorem concat_map_flatMap (f : String → String) (g : String → List String)
    (l : List String) :
    concatStrings ((l.flatMap g).map f)
      = concatStrings (l.map fun h => concatStrings ((g h).map f)) := by
  induction l with
  | nil => rfl
  | cons a t ih =>
    simp only [List.flatMap_cons, List.map_append, concatStrings_append, ih,
      List.map_cons, concatStrings_cons]

theorem host_block_eq_lines (zone ttl : String) (rt : RecordType) (m : MethodType)
    (rv h : String) :
    host_block zone ttl rt m rv h
      = concatStrings ((host_lines zone ttl rt m rv h).map (· ++ "\n")) := by
  cases m <;>
    simp [host_block, host_lines, concatStrings_cons, concatStrings_nil,
      String.append_assoc]

/-- The string built by the loop of src/api.py lines 144-151 is exactly
the joined line view: every directive piece appended by the source ends
in one newline character. -/
theorem file_content_eq_joinNL (zone ttl : String) (rt : RecordType)
    (m : MethodType) (hosts : List String) (rv : String) :
    file_content zone ttl rt m hosts rv = joinNL (file_lines zone ttl rt m hosts rv) := by
  unfold file_content joinNL file_lines
  rw [foldl_append_concat]
  simp only [List.map_append, concatStrings_append, concat_map_flatMap]
  simp only [List.map_cons, List.map_nil, concatStrings_cons, concatStrings_nil]
  have hb : (fun h => concatStrings ((host_lines zone ttl rt m rv h).map (· ++ "\n")))
      = fun h => host_block zone ttl rt m rv h := by
    funext h
    rw [host_block_eq_lines]
  rw [hb]
  simp [String.append_assoc]

/-- The character of a string at a given index, if any. -/
def charAt (s : String) (i : Nat) : Option Char :=
  (s.data.drop i).head?

theorem ne_of_charAt (i : Nat) (s t : String) (h : charAt s i ≠ charAt t i) :
    s ≠ t := by
  intro he
  exact h (by rw [he])

theorem flatMap_single (f : String → String) (l : List String) :
    (l.flatMap fun h => [f h]) = l.map f := by
  induction l with
  | nil => rfl
  | cons a t ih => simp [List.flatMap_cons, ih]

/-- For the delete method the line view holds no add directive: it is
the two header lines, one delete line per host, and the send marker. -/
theorem file_lines_delete (zone ttl : String) (rt : RecordType)
    (hosts : List String) (rv : String) :
    file_lines zone ttl rt .delete hosts rv
      = ["server 127.0.0.1", "zone " ++ zone]
        ++ hosts.map (fun h => "update delete " ++ h ++ "." ++ zone ++ " " ++ rt.value)
        ++ ["send"] := by
  have hl : host_lines zone ttl rt .delete rv
      = fun h => ["update delete " ++ h ++ "." ++ zone ++ " " ++ rt.value] := by
    funext h
    simp [host_lines]
  rw [file_lines, hl, flatMap_single]

/-- C1: the claim that the executor guarantees mutual exclusion per
transaction medium instance fails on this code.  Both implementations
address the same fixed path (temporary directory joined with the
constant name nsupdate.txt) and take no lock, and under the interleaving
in which both requests write before the first invokes the tool, the tool
run belonging to the first request reads the second request's batch:
the first batch was overwritten in the transaction medium before the
external tool read it. -/
theorem c1_shared_path_no_mutual_exclusion :
    update_file "/tmp" = Legacy.update_filename "/tmp"
    ∧ (execRun "batchA" "batchB"
        [.write false, .write true, .invoke false, .invoke true]).readFirst
        = some "batchB"
    ∧ (execRun "batchA" "batchB"
        [.write false, .write true, .invoke false, .invoke true]).readFirst
        ≠ some "batchA" :=
  ⟨rfl, by decide, by decide⟩

/-- C4: for every delete request the built transaction contains only the
server line, the zone line, one update delete directive per host, and
the send marker; in particular no line of it is an update add
directive. -/
theorem c4_delete_never_contains_add (zone ttl : String) (rt : RecordType)
    (hosts : List String) (rv : String) :
    file_content zone ttl rt .delete hosts rv
      = joinNL (["server 127.0.0.1", "zone " ++ zone]
          ++ hosts.map (fun h => "update delete " ++ h ++ "." ++ zone ++ " " ++ rt.value)
          ++ ["send"])
    ∧ ∀ l ∈ file_lines zone ttl rt .delete hosts rv, ∀ rest : String,
        l ≠ "update add " ++ rest := by
  constructor
  · rw [file_content_eq_joinNL, file_lines_delete]
  · intro l hl rest
    rw [file_lines_delete] at hl
    simp only [List.mem_append, List.mem_cons, List.mem_map,
      List.mem_singleton, List.not_mem_nil, or_false] at hl
    rcases hl with ((h1 | h1) | ⟨h, _, h1⟩) | h1
    · subst h1
      apply ne_of_charAt 0
      show some 's' ≠ some 'u'
      decide
    · subst h1
      apply ne_of_charAt 0
      show some 'z' ≠ some 'u'
      decide
    · subst h1
      apply ne_of_charAt 7
      show some 'd' ≠ some 'a'
      decide
    · subst h1
      apply ne_of_charAt 0
      show some 's' ≠ some 'u'
      decide

/-- C8 fails on this code: the executor never removes the transaction
file it wrote.  On every exit path (tool ran successfully, tool exited
nonzero, invocation failed) the shared nsupdate.txt slot still holds the
request's batch when the request completes; no removal appears anywhere
in either source file. -/
theorem c8_transaction_file_never_removed (zone ttl : String)
    (rt : RecordType) (m : MethodType) (hosts : List String)
    (value0 : Option String) (clientHost : String) (tool : ToolRun)
    (rv : String) (h : record_value rt m value0 clientHost = .ok rv) :
    (update_record zone ttl rt m hosts value0 clientHost tool).nsupdateFile
      = some (file_content zone ttl rt m hosts rv) := by
  unfold update_record
  rw [h]
  cases tool with
  | execFailed => rfl
  | ran code =>
    by_cases hc : code ≠ 0
    · simp only [if_pos hc]
    · simp only [if_neg hc]

theorem c8_transaction_file_never_removed_witness :
    record_value .A .update (some "10.0.0.5") "9.9.9.9" = .ok "10.0.0.5"
    ∧ (update_record "example.com" "3600" .A .update ["foo"] (some "10.0.0.5")
        "9.9.9.9" .execFailed).nsupdateFile
      = some (file_content "example.com" "3600" .A .update ["foo"] "10.0.0.5") :=
  ⟨by decide,
   c8_transaction_file_never_removed "example.com" "3600" .A .update ["foo"]
     (some "10.0.0.5") "9.9.9.9" .execFailed "10.0.0.5" (by decide)⟩

/-- C2: for every valid hostname and explicit valid IP value that the
strip step leaves unchanged, the A-record update transaction against
zone example.com with TTL 3600 resolves the record value to the given
IP and consists of exactly the server and zone header, the delete
directive for the host, the add directive carrying the value, in that
order, and the send marker. -/
theorem c2_a_update_delete_then_add (h v c : String)
    (_hhost : validHost h = true) (hip : is_valid_ip v = true)
    (hstrip : pyStrip valueStripSet v = v) (hne : v ≠ "") :
    record_value .A .update (some v) c = .ok v
    ∧ file_content "example.com" "3600" .A .update [h] v
      = "server 127.0.0.1\n" ++ "zone example.com\n"
        ++ ("update delete " ++ h ++ ".example.com A\n")
        ++ ("update add " ++ h ++ ".example.com 3600 A " ++ v ++ "\n")
        ++ "send\n" := by
  constructor
  · have hs : strippedValue (some v) = v := by
      simp only [strippedValue, if_neg hne, hstrip]
    simp only [record_value, hs, hip]
    rw [if_pos hne]
    simp
  · apply String.ext
    simp [file_content, host_block, RecordType.value, String.data_append]

theorem c2_a_update_delete_then_add_witness :
    validHost "foo" = true
    ∧ is_valid_ip "10.0.0.5" = true
    ∧ pyStrip valueStripSet "10.0.0.5" = "10.0.0.5"
    ∧ "10.0.0.5" ≠ ""
    ∧ (record_value .A .update (some "10.0.0.5") "1.2.3.4" = .ok "10.0.0.5"
      ∧ file_content "example.com" "3600" .A .update ["foo"] "10.0.0.5"
        = "server 127.0.0.1\n" ++ "zone example.com\n"
          ++ ("update delete " ++ "foo" ++ ".example.com A\n")
          ++ ("update add " ++ "foo" ++ ".example.com 3600 A " ++ "10.0.0.5" ++ "\n")
          ++ "send\n") :=
  ⟨by decide, by decide, by decide, by decide,
   c2_a_update_delete_then_add "foo" "10.0.0.5" "1.2.3.4"
     (by decide) (by decide) (by decide) (by decide)⟩

/-- C3 fails as stated: the escaping of src/api.py leaves newline
characters in a TXT value untouched, so a caller-supplied value
containing a newline yields an add directive that does not occupy
exactly one line of the written transaction medium. -/
theorem c3_counterexample :
    record_value .TXT .update (some "a\nb") "1.2.3.4" = .ok "\"a\nb\""
    ∧ ("update add foo.example.com 3600 TXT \"a\nb\""
        ∈ file_lines "example.com" "3600" .TXT .update ["foo"] "\"a\nb\"")
    ∧ '\n' ∈ ("update add foo.example.com 3600 TXT \"a\nb\"" : String).data :=
  ⟨by decide, by decide, by decide⟩

/-- C3 amended: when the configured zone and TTL and each host and the
resolved record value contain no newline character, the written
transaction medium is exactly the newline-joined list of directive
lines, and each directive occupies exactly one line (no line of the
transaction contains a newline). -/
theorem c3_line_oriented_grammar (zone ttl rv : String) (rt : RecordType)
    (m : MethodType) (hosts : List String)
    (hz : '\n' ∉ zone.data) (ht : '\n' ∉ ttl.data) (hv : '\n' ∉ rv.data)
    (hh : ∀ h ∈ hosts, '\n' ∉ h.data) :
    file_content zone ttl rt m hosts rv = joinNL (file_lines zone ttl rt m hosts rv)
    ∧ ∀ l ∈ file_lines zone ttl rt m hosts rv, '\n' ∉ l.data := by
  refine ⟨file_content_eq_joinNL zone ttl rt m hosts rv, ?_⟩
  intro l hl
  simp only [file_lines, List.mem_append, List.mem_cons, List.mem_singleton,
    List.not_mem_nil, or_false, List.mem_flatMap] at hl
  rcases hl with ((h1 | h1) | ⟨a, ha, h1⟩) | h1
  · subst h1
    decide
  · subst h1
    simp [String.data_append, hz]
  · have hha := hh a ha
    cases rt <;> cases m <;>
      simp only [host_lines, RecordType.value, List.mem_append, List.mem_cons,
        List.not_mem_nil, or_false, if_pos, if_neg, reduceIte,
        List.mem_singleton] at h1 <;>
      rcases h1 with h1 | h1 <;>
      first
        | (subst h1; simp [String.data_append, hz, ht, hv, hha])
        | exact absurd h1 (by simp)
  · subst h1
    decide

/-! ## Helper lemmas about value resolution and the full request -/

/-- A TXT delete never fails validation; record_value is the quoted
escaped value when nonempty after stripping, and empty otherwise. -/
theorem record_value_txt_delete (value0 : Option String) (c : String) :
    record_value .TXT .delete value0 c
      = .ok (if strippedValue value0 = "" then ""
             else "\"" ++ escape_quotes (strippedValue value0) ++ "\"") := by
  have hne : ¬ (MethodType.delete = MethodType.update ∧ strippedValue value0 = "") :=
    fun hc => absurd hc.1 (by decide)
  by_cases hv : strippedValue value0 = "" <;>
    simp [record_value, hne, hv]

/-- An A request whose stripped value is empty or a valid IP never fails
validation; record_value is the client address or the stripped value. -/
theorem record_value_a_ok (m : MethodType) (value0 : Option String) (c : String)
    (h : strippedValue value0 = "" ∨ is_valid_ip (strippedValue value0) = true) :
    record_value .A m value0 c
      = .ok (if strippedValue value0 = "" then c else strippedValue value0) := by
  rcases h with h | h
  · simp [record_value, h]
  · by_cases hv : strippedValue value0 = ""
    · simp [record_value, hv]
    · simp [record_value, hv, h]

/-- For the delete method the built string does not depend on the
resolved record value. -/
theorem file_content_delete_rv (zone ttl : String) (rt : RecordType)
    (hosts : List String) (rv1 rv2 : String) :
    file_content zone ttl rt .delete hosts rv1
      = file_content zone ttl rt .delete hosts rv2 := by
  rw [file_content_eq_joinNL, file_content_eq_joinNL,
    file_lines_delete, file_lines_delete]

/-- Unfolding of update_record once validation has succeeded. -/
theorem update_record_ok (zone ttl : String) (rt : RecordType) (m : MethodType)
    (hosts : List String) (value0 : Option String) (clientHost : String)
    (tool : ToolRun) (rv : String)
    (h : record_value rt m value0 clientHost = .ok rv) :
    update_record zone ttl rt m hosts value0 clientHost tool
      = { nsupdateFile := some (file_content zone ttl rt m hosts rv)
          result :=
            match tool with
            | .execFailed => .httpError (.internalError "An error occured.")
            | .ran code =>
              if code ≠ 0 then .httpError (.internalError "An error occured.")
              else .success (if m = .delete then .deleted hosts rt
                             else .updated hosts rt rv) } := by
  unfold update_record
  rw [h]
  cases tool with
  | execFailed => rfl
  | ran code =>
    by_cases hc : code ≠ 0
    · simp only [if_pos hc]
    · simp only [if_neg hc]

/-- C5 fails as stated: in both implementations the A branch validates a
nonempty value as an IP address without consulting the method, so an
A-record delete with a syntactically invalid value fails validation even
though deletion ignores the value, while the same delete with no value
succeeds. -/
theorem c5_counterexample :
    (update_record "example.com" "3600" .A .delete ["foo"] (some "not-an-ip")
        "9.9.9.9" (.ran 0)).result
      = .httpError (.badRequest "Value for A record is not a valid IP")
    ∧ (update_record "example.com" "3600" .A .delete ["foo"] none
        "9.9.9.9" (.ran 0)).result
      = .success (.deleted ["foo"] .A)
    ∧ Legacy.resolve_value .A .delete "not-an-ip" none "9.9.9.9"
      = .fail .addressInvalid :=
  ⟨by decide, by decide, by decide⟩

/-- C5 amended: for TXT deletes the value parameter is ignored entirely
(any two values give identical outcomes), and for A deletes the value
never influences the built transaction or the response, but a nonempty
value that is not a valid IP address still fails validation; value
independence for A deletes therefore holds among requests whose stripped
value is empty or a valid IP. -/
theorem c5_delete_value_independence :
    (∀ (zone ttl : String) (hosts : List String) (c : String) (tool : ToolRun)
      (v1 v2 : Option String),
      update_record zone ttl .TXT .delete hosts v1 c tool
        = update_record zone ttl .TXT .delete hosts v2 c tool)
    ∧ (∀ (zone ttl : String) (hosts : List String) (c : String) (tool : ToolRun)
        (v1 v2 : Option String),
        (strippedValue v1 = "" ∨ is_valid_ip (strippedValue v1) = true) →
        (strippedValue v2 = "" ∨ is_valid_ip (strippedValue v2) = true) →
        update_record zone ttl .A .delete hosts v1 c tool
          = update_record zone ttl .A .delete hosts v2 c tool) := by
  constructor
  · intro zone ttl hosts c tool v1 v2
    rw [update_record_ok zone ttl .TXT .delete hosts v1 c tool _
          (record_value_txt_delete v1 c),
        update_record_ok zone ttl .TXT .delete hosts v2 c tool _
          (record_value_txt_delete v2 c)]
    rw [file_content_delete_rv zone ttl .TXT hosts
          (if strippedValue v1 = "" then ""
           else "\"" ++ escape_quotes (strippedValue v1) ++ "\"")
          (if strippedValue v2 = "" then ""
           else "\"" ++ escape_quotes (strippedValue v2) ++ "\"")]
    simp
  · intro zone ttl hosts c tool v1 v2 h1 h2
    rw [update_record_ok zone ttl .A .delete hosts v1 c tool _
          (record_value_a_ok .delete v1 c h1),
        update_record_ok zone ttl .A .delete hosts v2 c tool _
          (record_value_a_ok .delete v2 c h2)]
    rw [file_content_delete_rv zone ttl .A hosts
          (if strippedValue v1 = "" then c else strippedValue v1)
          (if strippedValue v2 = "" then c else strippedValue v2)]
    simp

theorem c5_delete_value_independence_witness :
    (strippedValue (some "10.0.0.5") = ""
        ∨ is_valid_ip (strippedValue (some "10.0.0.5")) = true)
    ∧ (strippedValue none = "" ∨ is_valid_ip (strippedValue none) = true)
    ∧ update_record "example.com" "3600" .A .delete ["foo"] (some "10.0.0.5")
        "9.9.9.9" (.ran 0)
      = update_record "example.com" "3600" .A .delete ["foo"] none
          "9.9.9.9" (.ran 0) :=
  ⟨by decide, by decide,
   c5_delete_value_independence.2 "example.com" "3600" ["foo"] "9.9.9.9"
     (.ran 0) (some "10.0.0.5") none (by decide) (by decide)⟩

/-! ## TXT value escaping and its round trip -/

/-- Modelled from the spec: the unescaping applied by the external
update tool when it parses a quoted string literal (this tool is not
part of src/): a backslash makes the following character literal and is
itself dropped. -/
def unescapeList : List Char → List Char
  | [] => []
  | c :: rest =>
    if c = '\\' then
      match rest with
      | [] => []
      | d :: rest2 => d :: unescapeList rest2
    else c :: unescapeList rest

/-- Modelled from the spec: string form of the external tool unescaping. -/
def unescape_string (s : String) : String :=
  ⟨unescapeList s.data⟩

/-- C6 fails as stated: src/api.py escapes only double quotes, not
backslashes, so a value ending in a backslash is emitted unchanged and
the escaping does not round-trip on it; the legacy implementation
escapes nothing at all, leaving even an interior double quote unescaped
inside the emitted literal. -/
theorem c6_counterexample :
    escape_quotes "a\\" = "a\\"
    ∧ unescape_string (escape_quotes "a\\") ≠ "a\\"
    ∧ Legacy.resolve_value .TXT .update "x\"y" none "1.2.3.4" = .ok "\"x\"y\"" :=
  ⟨by decide, by decide, by decide⟩

theorem unescapeList_cons_ne (c : Char) (l : List Char) (hc : c ≠ '\\') :
    unescapeList (c :: l) = c :: unescapeList l := by
  rw [unescapeList.eq_def]
  simp [hc]

theorem unescape_escape_of_no_backslash (l : List Char) (h : '\\' ∉ l) :
    unescapeList (escapeQuotesList l) = l := by
  induction l with
  | nil => rfl
  | cons c rest ih =>
    have hc : c ≠ '\\' := fun e => h (e ▸ List.mem_cons_self c rest)
    have hr : '\\' ∉ rest := fun hm => h (List.mem_cons_of_mem c hm)
    by_cases hq : c = '"'
    · subst hq
      simp [escapeQuotesList, unescapeList, ih hr]
    · rw [show escapeQuotesList (c :: rest) = c :: escapeQuotesList rest by
            simp [escapeQuotesList, hq],
          unescapeList_cons_ne c _ hc, ih hr]

/-- C6 amended: src/api.py escapes only the double-quote characters of a
TXT update value before embedding it in the quoted literal, and for
every value containing no backslash this escaping round-trips: the
external tool unescaping recovers the original value. -/
theorem c6_txt_escape_roundtrip (v c : String)
    (hstrip : pyStrip valueStripSet v = v) (hne : v ≠ "")
    (hb : '\\' ∉ v.data) :
    record_value .TXT .update (some v) c = .ok ("\"" ++ escape_quotes v ++ "\"")
    ∧ unescape_string (escape_quotes v) = v := by
  constructor
  · have hs : strippedValue (some v) = v := by
      simp only [strippedValue, if_neg hne, hstrip]
    simp [record_value, hs, hne]
  · apply String.ext
    simp only [unescape_string, escape_quotes]
    exact unescape_escape_of_no_backslash v.data hb

theorem c6_txt_escape_roundtrip_witness :
    pyStrip valueStripSet "a\"b" = "a\"b"
    ∧ "a\"b" ≠ ""
    ∧ '\\' ∉ ("a\"b" : String).data
    ∧ (record_value .TXT .update (some "a\"b") "1.2.3.4"
        = .ok ("\"" ++ escape_quotes "a\"b" ++ "\"")
      ∧ unescape_string (escape_quotes "a\"b") = "a\"b") :=
  ⟨by decide, by decide, by decide,
   c6_txt_escape_roundtrip "a\"b" "1.2.3.4" (by decide) (by decide) (by decide)⟩

/-- C7: when no usable explicit value accompanies an A-record update
(the raw value is absent or strips to the empty string), the resolved
record value is the observed caller address: in src/api.py the transport
layer address request.client.host, and in the legacy implementation the
X-Real-IP reverse-proxy header when present, falling back to the
transport address; the add directives of the written transaction then
carry that address. -/
theorem c7_default_a_value_is_caller_address (zone ttl : String)
    (hosts : List String) (c : String) (value0 : Option String)
    (hempty : strippedValue value0 = "")
    (xRealIp : Option String) (remoteAddr : String) :
    record_value .A .update value0 c = .ok c
    ∧ (update_record zone ttl .A .update hosts value0 c (.ran 0)).nsupdateFile
      = some (file_content zone ttl .A .update hosts c)
    ∧ Legacy.resolve_value .A .update "" xRealIp remoteAddr
      = .ok (xRealIp.getD remoteAddr) := by
  have h1 : record_value .A .update value0 c = .ok c := by
    simp [record_value, hempty]
  refine ⟨h1, ?_, ?_⟩
  · rw [update_record_ok zone ttl .A .update hosts value0 c (.ran 0) c h1]
  · simp [Legacy.resolve_value]

theorem c7_default_a_value_is_caller_address_witness :
    strippedValue none = ""
    ∧ (record_value .A .update none "9.9.9.9" = .ok "9.9.9.9"
      ∧ (update_record "example.com" "3600" .A .update ["foo"] none "9.9.9.9"
          (.ran 0)).nsupdateFile
        = some (file_content "example.com" "3600" .A .update ["foo"] "9.9.9.9")
      ∧ Legacy.resolve_value .A .update "" (some "7.7.7.7") "9.9.9.9"
        = .ok ((some "7.7.7.7").getD "9.9.9.9")) :=
  ⟨by decide,
   c7_default_a_value_is_caller_address "example.com" "3600" ["foo"] "9.9.9.9"
     none (by decide) (some "7.7.7.7") "9.9.9.9"⟩

/-- C9 fails as stated for the legacy implementation: a TXT update value
consisting of two double-quote characters is empty after trimming the
surrounding quote characters, yet the legacy handler tests emptiness
before quote-stripping, raises no error, and builds an empty quoted
literal. -/
theorem c9_counterexample :
    pyStrip valueStripSet "\"\"" = ""
    ∧ Legacy.resolve_value .TXT .update "\"\"" none "9.9.9.9" = .ok "\"\"" :=
  ⟨by decide, by decide⟩

/-- C9 amended: in src/api.py a TXT update fails with the empty-value
error exactly when the value is empty after stripping the surrounding
space, double-quote and single-quote characters; the legacy
implementation instead tests emptiness of the whitespace-trimmed raw
value before quote-stripping. -/
theorem c9_txt_empty_value_iff (v c : String) :
    record_value .TXT .update (some v) c
        = .fail (.badRequest "TXT record value cannot be empty")
      ↔ pyStrip valueStripSet v = "" := by
  have hs : strippedValue (some v) = pyStrip valueStripSet v := by
    by_cases hv : v = ""
    · subst hv
      rfl
    · simp [strippedValue, hv]
  constructor
  · intro h
    by_contra hne
    simp [record_value, hs, hne] at h
  · intro h
    simp [record_value, hs, h]

/-- C10 fails as stated: on the very same validated request the two
implementations write different transaction media; the server target
line alone differs (127.0.0.1 against localhost). -/
theorem c10_counterexample :
    (update_record "example.com" "3600" .A .update ["foo"] (some "10.0.0.5")
        "9.9.9.9" (.ran 0)).nsupdateFile
      = some ("server 127.0.0.1\nzone example.com\nupdate delete foo.example.com A\nupdate add foo.example.com 3600 A 10.0.0.5\nsend\n")
    ∧ Legacy.resolve_value .A .update "10.0.0.5" none "9.9.9.9" = .ok "10.0.0.5"
    ∧ Legacy.hostsOf "example.com" "foo" = ["foo.example.com"]
    ∧ Legacy.file_content "example.com" "3600" .A .update ["foo.example.com"] "10.0.0.5"
      = "server localhost\nzone example.com\nupdate delete foo.example.com A\nupdate add foo.example.com 3600 A 10.0.0.5\nsend\n"
    ∧ (update_record "example.com" "3600" .A .update ["foo"] (some "10.0.0.5")
        "9.9.9.9" (.ran 0)).nsupdateFile
      ≠ some (Legacy.file_content "example.com" "3600" .A .update
          ["foo.example.com"] "10.0.0.5") :=
  ⟨by decide, by decide, by decide, by decide, by decide⟩

/-- C10 amended: the two implementations agree on every directive line
after the server target line — given the same normalized zone, TTL,
record type, method, host list and the same resolved record value, the
line views coincide from the zone line on — but their first lines name
different server targets. -/
theorem c10_directives_agree_after_server_line (zone ttl rv : String)
    (rt : RecordType) (m : MethodType) (hosts : List String) :
    (file_lines zone ttl rt m hosts rv).tail
      = (Legacy.file_lines zone ttl rt m (hosts.map fun h => h ++ "." ++ zone) rv).tail
    ∧ (file_lines zone ttl rt m hosts rv).head? = some "server 127.0.0.1"
    ∧ (Legacy.file_lines zone ttl rt m (hosts.map fun h => h ++ "." ++ zone)
        rv).head? = some "server localhost" := by
  have hone : ∀ h : String, host_lines zone ttl rt m rv h
      = Legacy.host_lines ttl rt m rv (h ++ "." ++ zone) := by
    intro h
    cases m <;> simp [host_lines, Legacy.host_lines, String.append_assoc]
  have hfm : hosts.flatMap (host_lines zone ttl rt m rv)
      = (hosts.map fun h => h ++ "." ++ zone).flatMap
          (Legacy.host_lines ttl rt m rv) := by
    induction hosts with
    | nil => rfl
    | cons a t ih =>
      simp only [List.map_cons, List.flatMap_cons, ih, hone a]
  refine ⟨?_, rfl, rfl⟩
  simp only [file_lines, Legacy.file_lines, hfm]
  rfl

theorem c3_line_oriented_grammar_witness :
    ('\n' ∉ ("example.com" : String).data)
    ∧ ('\n' ∉ ("3600" : String).data)
    ∧ ('\n' ∉ ("10.0.0.5" : String).data)
    ∧ (∀ h ∈ ["foo"], '\n' ∉ h.data)
    ∧ (file_content "example.com" "3600" .A .update ["foo"] "10.0.0.5"
        = joinNL (file_lines "example.com" "3600" .A .update ["foo"] "10.0.0.5")
      ∧ ∀ l ∈ file_lines "example.com" "3600" .A .update ["foo"] "10.0.0.5",
          '\n' ∉ l.data) :=
  ⟨by decide, by decide, by decide, by decide,
   c3_line_oriented_grammar "example.com" "3600" "10.0.0.5" .A .update ["foo"]
     (by decide) (by decide) (by decide) (by decide)⟩

theorem c4_delete_never_contains_add_witness :
    file_content "example.com" "3600" .TXT .delete ["foo"] "ignored"
      = joinNL (["server 127.0.0.1", "zone " ++ "example.com"]
          ++ (["foo"].map fun h =>
                "update delete " ++ h ++ "." ++ "example.com" ++ " "
                  ++ RecordType.TXT.value)
          ++ ["send"])
    ∧ ("update delete foo.example.com TXT"
        ∈ file_lines "example.com" "3600" .TXT .delete ["foo"] "ignored")
    ∧ "update delete foo.example.com TXT" ≠ "update add " ++ "anything" :=
  ⟨(c4_delete_never_contains_add "example.com" "3600" .TXT ["foo"] "ignored").1,
   by decide,
   (c4_delete_never_contains_add "example.com" "3600" .TXT ["foo"] "ignored").2
     "update delete foo.example.com TXT" (by decide) "anything"⟩
